import Mathlib

/-!
Verification of the render-tracking core of `vue-why-did-you-render`.

The development shallowly embeds the TypeScript sources:
  * `src/core/registry.ts`   — the `RenderRegistry` class (classifier,
    equivalence detector, aggregator, throttling, statistics);
  * `src/core/pinia-tracker.ts` — the `PiniaTracker` class (store property
    resolver and getter-value snapshot cache).

JavaScript values are modelled by an inductive `Value`; objects and functions
carry numeric identities into a `World` (an association list of object data),
so `===` on objects is reference identity.  Reads of reactive backing fields
(`_value`, `.value`) and getter invocations may throw; a throwing read is
modelled by `JsRead.thrown`.  Machine state that the registry mutates
(`Map`/`Set` members) is modelled with association lists that preserve
insertion order, matching JS `Map`/`Set` iteration order.
-/

namespace Wdyr

/-- JavaScript runtime values.  Objects and functions are represented by
numeric identities into a `World`, so strict equality on them is reference
identity.  Numbers are modelled as integers (the tracked code never computes
with fractional values). -/
inductive Value where
  | undefined
  | vnull
  | bool (b : Bool)
  | num (n : Int)
  | str (s : String)
  | obj (id : Nat)
  | func (id : Nat)
deriving DecidableEq, Repr, Inhabited

/-- A `string | symbol` property key as it appears in Vue debugger events. -/
inductive JsKey where
  | str (s : String)
  | sym (s : String)
deriving DecidableEq, Repr, Inhabited

/-- Result of reading a JavaScript property or invoking a getter: a value, or
a thrown exception. -/
inductive JsRead where
  | val (v : Value)
  | thrown
deriving DecidableEq, Repr, Inhabited

/-- JavaScript `typeof`. -/
def typeOf : Value → String
  | .undefined => "undefined"
  | .vnull => "object"
  | .bool _ => "boolean"
  | .num _ => "number"
  | .str _ => "string"
  | .obj _ => "object"
  | .func _ => "function"

/-- JavaScript truthiness. -/
def truthy : Value → Bool
  | .undefined => false
  | .vnull => false
  | .bool b => b
  | .num n => n != 0
  | .str s => decide (s ≠ "")
  | .obj _ => true
  | .func _ => true

/-- JavaScript `String.prototype.startsWith` for a one-character prefix (the
source only tests the prefixes `"$"` and `"_"`), written over the character
list so that it evaluates by kernel reduction. -/
def startsWithChar (s : String) (c : Char) : Bool :=
  match s.data with
  | [] => false
  | d :: _ => d == c

/-- String interpolation of a value (JS template literal). -/
def jsToString : Value → String
  | .undefined => "undefined"
  | .vnull => "null"
  | .bool b => if b then "true" else "false"
  | .num n => toString n
  | .str s => s
  | .obj _ => "[object Object]"
  | .func _ => "function"

/-- Association-list lookup (first matching key), modelling `Map.get`. -/
def aget {α β : Type} [DecidableEq α] : List (α × β) → α → Option β
  | [], _ => none
  | (a, b) :: t, k => if a = k then some b else aget t k

/-- Association-list update-or-append, modelling `Map.set` (keys stay in
insertion order, as in a JS `Map`). -/
def aset {α β : Type} [DecidableEq α] : List (α × β) → α → β → List (α × β)
  | [], k, v => [(k, v)]
  | (a, b) :: t, k, v => if a = k then (k, v) :: t else (a, b) :: aset t k v

/-- Association-list removal, modelling `Map.delete`. -/
def aerase {α β : Type} [DecidableEq α] (m : List (α × β)) (k : α) : List (α × β) :=
  m.filter (fun p => decide (p.1 ≠ k))

/-- One node of the `effect.deps` linked list of Vue 3.4+: the classifier
reads `dep.dep?.computed` and `dep.dep?.target` and then follows `nextDep`
(modelled by the list tail). -/
structure DepNode where
  computed : Option Nat := none
  target : Option Nat := none
deriving DecidableEq, Repr, Inhabited

/-- The `effect` handle carried by a debugger event: its `deps` linked list
(`[]` models an absent/falsy `deps`), and the `computed` / `fn` properties
consulted by the store-lookup strategies. -/
structure EffectH where
  deps : List DepNode := []
  computed : Option Nat := none
  fn : Option Nat := none
deriving DecidableEq, Repr, Inhabited

/-- The runtime shape of one JavaScript object as inspected by the tracker:
enumerable own fields (in `Object.keys` order), array elements when the object
is an array, the `__v_raw` unwrapping pointer, Vue marker flags, the `effect`
handle, the `_value` / `value` cells (whose reads may throw), the invocation
result when the object is callable, the `_getter` cell, the `_object`/`_key`
back-pointers of `toRef` refs, and `dep.computed`. -/
structure JsObj where
  fields : List (String × Value) := []
  elems : Option (List Value) := none
  rawId : Option Nat := none
  isRefFlag : Bool := false
  isComputedFlag : Bool := false
  isReactiveFlag : Bool := false
  effectH : Option EffectH := none
  uv : Option JsRead := none
  valueProp : Option JsRead := none
  callResult : Option JsRead := none
  getterFnId : Option Nat := none
  objBack : Option Nat := none
  keyBack : Option String := none
  depComputed : Option Nat := none
deriving DecidableEq, Repr, Inhabited

/-- The JavaScript object graph at one instant. -/
def World : Type := List (Nat × JsObj)

/-- Dereference an object identity (ill-formed identities yield an empty
object; the worlds used in theorems and witnesses are well-formed). -/
def getObj (w : World) (i : Nat) : JsObj :=
  (aget w i).getD {}

/-- Reading `o._value`: an absent property reads as `undefined`. -/
def readUv (o : JsObj) : JsRead :=
  o.uv.getD (.val .undefined)

/-- Reading `o.value`: an absent property reads as `undefined`. -/
def readValueProp (o : JsObj) : JsRead :=
  o.valueProp.getD (.val .undefined)

/-- Vue's `toRaw`, which follows `__v_raw` pointers; the recursion is bounded
by the (finite, acyclic in any real heap) length of the world. -/
def toRawF (w : World) : Nat → Value → Value
  | 0, v => v
  | n + 1, v =>
    match v with
    | .obj i =>
      match (getObj w i).rawId with
      | some r => toRawF w n (.obj r)
      | none => v
    | _ => v

/-- Vue's `toRaw` with enough fuel for any chain in `w`. -/
def toRaw (w : World) (v : Value) : Value :=
  toRawF w (w.length + 1) v

/-- JavaScript `Array.isArray`. -/
def isArrayV (w : World) (v : Value) : Bool :=
  match v with
  | .obj i => (getObj w i).elems.isSome
  | _ => false

/-- Elements of an array value. -/
def arrElems (w : World) (v : Value) : List Value :=
  match v with
  | .obj i => (getObj w i).elems.getD []
  | _ => []

/-- JavaScript `Object.keys` (for arrays: the index strings). -/
def objKeys (w : World) (v : Value) : List String :=
  match v with
  | .obj i =>
    match (getObj w i).elems with
    | some es => (List.range es.length).map toString
    | none => (getObj w i).fields.map Prod.fst
  | _ => []

/-- JavaScript indexing `o[k]` with a string key (absent keys read as
`undefined`). -/
def objGet (w : World) (v : Value) (k : String) : Value :=
  match v with
  | .obj i =>
    match (getObj w i).elems with
    | some es =>
      match k.toNat? with
      | some n => es.getD n .undefined
      | none => .undefined
    | none => (aget (getObj w i).fields k).getD .undefined
  | _ => .undefined

/-- Shallow embedding of `RenderRegistry.detectNoOp`
(`src/core/registry.ts` lines 477-517). -/
def detectNoOp (w : World) (oldValue newValue : Value) : Bool :=
  -- Both undefined/null - not a no-op, it's initial
  if oldValue = .undefined ∧ newValue = .undefined then false
  else if oldValue = .vnull ∧ newValue = .vnull then true
  -- Same reference or primitive value
  else if oldValue = newValue then true
  -- One is undefined - not a no-op (triggerRef case)
  else if oldValue = .undefined ∨ newValue = .undefined then false
  -- Different types - not a no-op
  else if typeOf oldValue ≠ typeOf newValue then false
  -- For objects, do a shallow comparison using toRaw to unwrap proxies
  else if typeOf oldValue = "object" ∧ oldValue ≠ .vnull ∧ newValue ≠ .vnull then
    let rawOld := toRaw w oldValue
    let rawNew := toRaw w newValue
    if isArrayV w rawOld ∧ isArrayV w rawNew then
      if (arrElems w rawOld).length ≠ (arrElems w rawNew).length then false
      else ((arrElems w rawOld).zip (arrElems w rawNew)).all
        (fun p => toRaw w p.1 == toRaw w p.2)
    else
      -- Plain objects - shallow compare of Object.keys and per-key values
      if (objKeys w rawOld).length ≠ (objKeys w rawNew).length then false
      else (objKeys w rawOld).all
        (fun k => toRaw w (objGet w rawOld k) == toRaw w (objGet w rawNew k))
  else false

/-- Kind of a store property (`'state' | 'getter' | 'action'`). -/
inductive PropKind where
  | state
  | getter
  | action
deriving DecidableEq, Repr, Inhabited

/-- Structure `StorePropertyInfo` from `src/core/pinia-tracker.ts`. -/
structure StorePropertyInfo where
  storeId : String
  propName : String
  propType : PropKind
deriving DecidableEq, Repr, Inhabited

/-- State of a `PiniaTracker` instance: the identity map from reactive-object
identities to store property info, the registered stores (`$id` to the store
object's identity), the getter snapshot cache keyed by `"storeId.propName"`,
and the reverse map from that key to the raw computed ref.  (`registerStore`,
which populates these maps, is not needed by any claim and is not embedded;
theorems quantify over arbitrary tracker states.) -/
structure PiniaTracker where
  refToStoreMap : List (Nat × StorePropertyInfo) := []
  registeredStores : List (String × Nat) := []
  getterValueCache : List (String × Value) := []
  propToRefMap : List (String × Nat) := []
  debug : Bool := false
deriving DecidableEq, Repr, Inhabited

/-- Keys of `store.$state || \x7b\x7d` (`Object.keys` of the state container,
or none when `$state` is absent or not an object). -/
def stateKeysOf (w : World) (store : JsObj) : List String :=
  objKeys w ((aget store.fields "$state").getD .undefined)

/-- Shallow embedding of `PiniaTracker.lookupProperty`
(`src/core/pinia-tracker.ts` lines 215-315): direct identity lookup, then the
`__v_raw` unwrapped identity, then — for arrays — a scan over all registered
stores' current state values (including the source's comparison of the two
possibly-undefined `__v_raw` pointers), then the `_object`/`_key` back-pointer
of `toRef` refs, then `effect.computed`, then `dep.computed`. -/
def PiniaTracker.lookupProperty (pt : PiniaTracker) (w : World) (tid : Nat) :
    Option StorePropertyInfo :=
  let t := getObj w tid
  match aget pt.refToStoreMap tid with
  | some direct => some direct
  | none =>
  let rawRes : Option StorePropertyInfo :=
    match t.rawId with
    | some r => aget pt.refToStoreMap r
    | none => none
  match rawRes with
  | some r => some r
  | none =>
  let arrRes : Option StorePropertyInfo :=
    if t.elems.isSome then
      pt.registeredStores.findSome? (fun sp =>
        let store := getObj w sp.2
        let stVal := (aget store.fields "$state").getD .undefined
        (objKeys w stVal).findSome? (fun propName =>
          let stateValue := objGet w stVal propName
          if stateValue = .obj tid then
            some { storeId := sp.1, propName := propName, propType := .state }
          else
            let rawStateValue : Value :=
              match stateValue with
              | .obj svid =>
                match (getObj w svid).rawId with
                | some rr => .obj rr
                | none => .undefined
              | _ => .undefined
            let rawVal : Value :=
              match t.rawId with
              | some r => .obj r
              | none => .undefined
            if rawStateValue = .obj tid ∨ rawStateValue = rawVal then
              some { storeId := sp.1, propName := propName, propType := .state }
            else none))
    else none
  match arrRes with
  | some r => some r
  | none =>
  let backRes : Option StorePropertyInfo :=
    match t.objBack, t.keyBack with
    | some oid, some kn =>
      if kn ≠ "" then
        pt.registeredStores.findSome? (fun sp =>
          let store := getObj w sp.2
          if oid = sp.2 ∨ (aget store.fields "$state") = some (.obj oid) then
            let propValue := (aget store.fields kn).getD .undefined
            let isComputed : Bool :=
              match propValue with
              | .obj pid => (getObj w pid).effectH.isSome || (getObj w pid).isComputedFlag
              | _ => false
            some { storeId := sp.1, propName := kn,
                   propType := if isComputed then .getter else .state }
          else none)
      else none
    | _, _ => none
  match backRes with
  | some r => some r
  | none =>
  let effRes : Option StorePropertyInfo :=
    match t.effectH with
    | some e =>
      match e.computed with
      | some cid => aget pt.refToStoreMap cid
      | none => none
    | none => none
  match effRes with
  | some r => some r
  | none =>
  match t.depComputed with
  | some cid => aget pt.refToStoreMap cid
  | none => none

/-- Shallow embedding of `PiniaTracker.valuesMatch` (lines 370-385). -/
def valuesMatch (w : World) (a b : Value) : Bool :=
  if a = b then true
  else if isArrayV w a ∧ isArrayV w b then
    (arrElems w a).length == (arrElems w b).length && a == b
  else if typeOf a = "object" ∧ typeOf b = "object" ∧ a ≠ .vnull ∧ b ≠ .vnull then
    a == b
  else false

/-- Shallow embedding of `PiniaTracker.lookupByValue` (lines 322-365): a
value-identity scan over getter properties, used only for `get`-kind events.
(The source's try/catch around `valuesMatch` cannot fire in the model, since
the modelled comparison does not read throwing properties.) -/
def PiniaTracker.lookupByValue (pt : PiniaTracker) (w : World) (value : Value)
    (ty : String) : Option StorePropertyInfo :=
  if ty ≠ "get" then none
  else
    pt.registeredStores.findSome? (fun sp =>
      let store := getObj w sp.2
      let stateKeys := stateKeysOf w store
      store.fields.findSome? (fun pv =>
        if startsWithChar pv.1 '$' ∨ startsWithChar pv.1 '_' then none
        else if typeOf pv.2 = "function" then none
        else if stateKeys.contains pv.1 then none
        else if valuesMatch w pv.2 value then
          some { storeId := sp.1, propName := pv.1, propType := .getter }
        else none))

/-- Shallow embedding of `PiniaTracker.getGetterValueWithOld` (lines 405-457).
`oldValue` is the cached snapshot (`undefined` when absent); `newValue` is
recomputed by calling the computed's getter (`effect.fn`, else `_getter`,
else a forced `.value` read), with any thrown exception caught and replaced
by the store's unwrapped property value.  Per the source comment, the cache
is NOT updated by this call; the `_dirty` forcing writes touch only the
computed ref's memoization flag and are not part of the modelled state. -/
def PiniaTracker.getGetterValueWithOld (pt : PiniaTracker) (w : World)
    (storeId propName : String) : Value × Value :=
  let cacheKey := storeId ++ "." ++ propName
  let oldValue := (aget pt.getterValueCache cacheKey).getD .undefined
  let storeFallback : Value :=
    match aget pt.registeredStores storeId with
    | some soid => (aget (getObj w soid).fields propName).getD .undefined
    | none => .undefined
  let newValue :=
    match aget pt.propToRefMap cacheKey with
    | some crid =>
      let cr := getObj w crid
      let attempt : JsRead :=
        match cr.effectH >>= (·.fn) with
        | some fid => (getObj w fid).callResult.getD (.val .undefined)
        | none =>
          match cr.getterFnId with
          | some gid => (getObj w gid).callResult.getD (.val .undefined)
          | none => readValueProp cr
      match attempt with
      | .val v => v
      | .thrown => storeFallback
    | none => storeFallback
  (oldValue, newValue)

/-- One iteration of the snapshot loop of
`PiniaTracker.snapshotGetterValues` (lines 469-484): skip internal
(`$`/`_`-prefixed) properties, functions (actions) and state keys, cache
everything else under `"storeId.propName"`. -/
def snapStep (stateKeys : List String) (storeId : String)
    (c : List (String × Value)) (pv : String × Value) : List (String × Value) :=
  if startsWithChar pv.1 '$' ∨ startsWithChar pv.1 '_' then c
  else if typeOf pv.2 = "function" then c
  else if stateKeys.contains pv.1 then c
  else aset c (storeId ++ "." ++ pv.1) pv.2

/-- Shallow embedding of `PiniaTracker.snapshotGetterValues` (lines 463-485):
for every enumerable store property that is not internal (`$`/`_` prefix),
not a function (action) and not a state key, cache the current value under
`"storeId.propName"`. -/
def PiniaTracker.snapshotGetterValues (pt : PiniaTracker) (w : World)
    (storeId : String) : PiniaTracker :=
  match aget pt.registeredStores storeId with
  | none => pt
  | some soid =>
    let store := getObj w soid
    let stateKeys := stateKeysOf w store
    let cache' := store.fields.foldl (snapStep stateKeys storeId) pt.getterValueCache
    { pt with getterValueCache := cache' }

/-- Shallow embedding of `PiniaTracker.snapshotAllGetterValues`
(lines 490-494). -/
def PiniaTracker.snapshotAllGetterValues (pt : PiniaTracker) (w : World) :
    PiniaTracker :=
  (pt.registeredStores.map Prod.fst).foldl
    (fun acc sid => acc.snapshotGetterValues w sid) pt

/-- Provenance of a trigger (`RenderTrigger['source']`). -/
inductive Source where
  | ref
  | reactive
  | computed
  | store
  | prop
  | unknown
deriving DecidableEq, Repr, Inhabited

/-- Re-render reason (`ComponentRenderEvent['rerenderReason']`). -/
inductive Reason where
  | initial
  | storeChange
  | propChange
  | stateChange
deriving DecidableEq, Repr, Inhabited

/-- A classified trigger (`RenderTrigger` from `src/core/types.ts`).
`computedRef` is the internal `_computedRef` reference used for deferred
value resolution. -/
structure Trigger where
  key : Option JsKey := none
  type : Option String := none
  oldValue : Value := .undefined
  newValue : Value := .undefined
  isNoOp : Bool := false
  source : Source := .unknown
  path : String := ""
  storeId : Option String := none
  storePropName : Option String := none
  storePropType : Option PropKind := none
  arrayIndex : Option String := none
  computedRef : Option Nat := none
deriving DecidableEq, Repr, Inhabited

/-- A finalized `ComponentRenderEvent`. -/
structure Event where
  componentName : String := ""
  componentId : String := ""
  timestamp : Nat := 0
  triggers : List Trigger := []
  tracked : List JsKey := []
  isInitialRender : Bool := false
  rerenderReason : Reason := .initial
  renderCount : Nat := 0
deriving DecidableEq, Repr, Inhabited

/-- The `WhyDidYouRenderOptions` fields that affect core behaviour.  The
`onRender` callback is modelled by presence only: invoking it does not change
registry state. -/
structure Options where
  pauseOnInit : Bool := false
  throttleMs : Option Nat := none
  enablePiniaTracking : Bool := false
  debug : Bool := false
  hasOnRender : Bool := false
deriving DecidableEq, Repr, Inhabited

/-- State of a `RenderRegistry` instance (`src/core/registry.ts`
lines 11-31). -/
structure RegState where
  registry : List (String × Event) := []
  trackedDeps : List (String × List JsKey) := []
  pendingTriggers : List (String × List Trigger) := []
  isPaused : Bool := false
  options : Options := {}
  totalRenders : Nat := 0
  rendersByComponent : List (String × Nat) := []
  noOpRenderCount : Nat := 0
  lastRenderTime : List (String × Nat) := []
  throttledEvents : List (String × Event) := []
  initialRenderComplete : List String := []
  piniaTracker : Option PiniaTracker := none
deriving DecidableEq, Repr, Inhabited

/-- The `RenderRegistry` constructor (lines 33-44). -/
def RenderRegistry.new (opts : Options) : RegState :=
  { options := opts
    isPaused := opts.pauseOnInit
    piniaTracker := if opts.enablePiniaTracking then some {} else none }

/-- A Vue `DebuggerEvent` as consumed by the registry: possibly-absent
`target` (an object identity) and `effect`, a `string | symbol` key, an
event type, and old/new values (absent fields read as `undefined`). -/
structure DbgEvent where
  target : Option Nat := none
  effect : Option EffectH := none
  key : Option JsKey := none
  type : Option String := none
  oldValue : Value := .undefined
  newValue : Value := .undefined
deriving DecidableEq, Repr, Inhabited

/-- Shallow embedding of `RenderRegistry.recordTrackedDependency`
(lines 53-63). -/
def recordTrackedDependency (st : RegState) (componentId : String)
    (ev : DbgEvent) : RegState :=
  if st.isPaused then st
  else
    let cur := (aget st.trackedDeps componentId).getD []
    let k := ev.key.getD (.str "unknown")
    let cur' := if cur.contains k then cur else cur ++ [k]
    { st with trackedDeps := aset st.trackedDeps componentId cur' }

/-- Outcome of walking the `effect.deps` linked list (lines 87-128): the
first dependency exposing a computed (with its possibly-throwing `_value`
read and its identity, kept for deferred resolution) or a ref (with its
`_value` read). -/
inductive DepHit where
  | computedHit (hid : Nat) (uvRead : JsRead)
  | refHit (uvRead : JsRead)
deriving DecidableEq, Repr, Inhabited

/-- The `while (dep) ... dep = dep.nextDep` walk of lines 87-128, where
`depTarget = dep.dep?.computed || dep.dep?.target` and a dependency is used
when it is a computed (`__v_isComputed` flag or an attached `effect`) or a
ref (`__v_isRef`). -/
def walkDeps (w : World) : List DepNode → Option DepHit
  | [] => none
  | d :: rest =>
    match d.computed <|> d.target with
    | some hid =>
      let h := getObj w hid
      if h.isComputedFlag || h.effectH.isSome then
        some (.computedHit hid (readUv h))
      else if h.isRefFlag then
        some (.refHit (readUv h))
      else walkDeps w rest
    | none => walkDeps w rest

/-- Shallow embedding of `RenderRegistry.inferSource` (lines 444-472). -/
def inferSource (w : World) (tid : Nat) : Source :=
  let t := getObj w tid
  if t.uv.isSome || t.isRefFlag then .ref
  else if t.effectH.isSome || t.isComputedFlag then .computed
  else if t.isReactiveFlag then .reactive
  else if truthy ((aget t.fields "$id").getD .undefined) ||
          truthy ((aget t.fields "_p").getD .undefined) then .store
  else .reactive

/-- Shallow embedding of `RenderRegistry.buildPath` (lines 522-553). -/
def buildPath (w : World) (target : Option Nat) (key : Option JsKey)
    (storeId : Option String) : String :=
  let keyFalsy : Bool :=
    match key with
    | none => true
    | some (.str s) => decide (s = "")
    | some (.sym _) => false
  if keyFalsy then "unknown"
  else
    let keyStr :=
      match key with
      | some (.sym s) => if s = "" then "symbol" else s
      | some (.str s) => s
      | none => ""
    let sidTruthy : Bool :=
      match storeId with
      | some s => decide (s ≠ "")
      | none => false
    if sidTruthy then (storeId.getD "") ++ "." ++ keyStr
    else
      match target with
      | none => keyStr
      | some tid =>
        let t := getObj w tid
        if t.isRefFlag then "ref." ++ keyStr
        else
          let dollarId := (aget t.fields "$id").getD .undefined
          if truthy dollarId then jsToString dollarId ++ "." ++ keyStr
          else keyStr

/-- Shallow embedding of `RenderRegistry.inferReason` (lines 558-574). -/
def inferReason (triggers : List Trigger) : Reason :=
  if triggers.length = 0 then .initial
  else
    let sources := triggers.map (·.source)
    if sources.contains .store then .storeChange
    else if sources.contains .prop then .propChange
    else .stateChange

/-- Test of the regex `^\d+$` from line 181. -/
def isDigitString (s : String) : Bool :=
  !s.data.isEmpty && s.data.all (·.isDigit)

/-- The array-mutation test of lines 178-181 (and its repetition at
lines 210-213). -/
def isArrayMutationB (ty : Option String) (key : Option JsKey) : Bool :=
  ty == some "add" || ty == some "delete" ||
    (ty == some "set" &&
      (match key with | some (.str s) => isDigitString s | _ => false))

/-- Intermediate result of the classification phase of `recordRenderTrigger`
(lines 69-173): the locals `oldValue`, `newValue`, `key`, `type`, `source`
and `computedRefForDeferred` just before no-op detection. -/
structure ClassifyRes where
  oldValue : Value := .undefined
  newValue : Value := .undefined
  key : Option JsKey := none
  type : Option String := none
  source : Source := .unknown
  computedRef : Option Nat := none
deriving DecidableEq, Repr, Inhabited

/-- The classification phase of `recordRenderTrigger` (lines 69-173): the
effect-only branch walks the dependency list and otherwise falls back to the
`'[dependency changed]'` sentinel; the target branch distinguishes computeds
(cached `_value` as old value, deferred new value), refs (backfilling missing
values from `_value ?? value` inside a try/catch that ignores failures) and
other targets (`inferSource`).  Every `_value`/`value` read here is wrapped
in try/catch by the source, so this phase never propagates an exception. -/
def classifyPhase (w : World) (ev : DbgEvent) : ClassifyRes :=
  match ev.target, ev.effect with
  | none, some eff =>
    (match walkDeps w eff.deps with
     | some (.computedHit hid uvRead) =>
       let ov := match uvRead with | .val v => v | .thrown => .undefined
       { oldValue := ov, newValue := ov, key := some (.str "value"),
         type := some "get", source := .computed, computedRef := some hid }
     | some (.refHit uvRead) =>
       let v := match uvRead with | .val v => v | .thrown => .undefined
       { oldValue := v, newValue := v, key := some (.str "value"),
         type := some "set", source := .ref, computedRef := none }
     | none =>
       { oldValue := ev.oldValue, newValue := .str "[dependency changed]",
         key := some (.str "dependency"), type := some "change",
         source := .computed, computedRef := none })
  | some tid, _ =>
    let t := getObj w tid
    if t.isComputedFlag || t.effectH.isSome then
      let key' := some (ev.key.getD (.str "value"))
      let type' := some (ev.type.getD "get")
      if ev.oldValue = .undefined ∧ ev.newValue = .undefined then
        let ov := match readUv t with | .val v => v | .thrown => .undefined
        { oldValue := ov, newValue := ov, key := key', type := type',
          source := .computed, computedRef := some tid }
      else
        { oldValue := ev.oldValue, newValue := ev.newValue, key := key',
          type := type', source := .computed, computedRef := none }
    else if t.isRefFlag then
      let key' := if ev.key = none then some (JsKey.str "value") else ev.key
      let type' := if ev.type = none then some "set" else ev.type
      if ev.oldValue = .undefined ∨ ev.newValue = .undefined then
        let attempt : JsRead :=
          match readUv t with
          | .thrown => .thrown
          | .val uvv =>
            if uvv = .undefined ∨ uvv = .vnull then readValueProp t else .val uvv
        match attempt with
        | .val cv =>
          { oldValue := if ev.oldValue = .undefined then cv else ev.oldValue,
            newValue := if ev.newValue = .undefined then cv else ev.newValue,
            key := key', type := type', source := .ref, computedRef := none }
        | .thrown =>
          { oldValue := ev.oldValue, newValue := ev.newValue, key := key',
            type := type', source := .ref, computedRef := none }
      else
        { oldValue := ev.oldValue, newValue := ev.newValue, key := key',
          type := type', source := .ref, computedRef := none }
    else
      { oldValue := ev.oldValue, newValue := ev.newValue, key := ev.key,
        type := ev.type, source := inferSource w tid, computedRef := none }
  | none, none =>
    { oldValue := ev.oldValue, newValue := ev.newValue, key := ev.key,
      type := ev.type, source := .unknown, computedRef := none }

/-- Shallow embedding of `RenderRegistry.lookupStoreProperty`
(lines 266-330): the fallback chain of lookup strategies.  Strategy 5 (older
Vue versions where `effect.deps` is an array of deps with `.computed`
members) is vacuous here because the model represents `deps` in its Vue 3.4+
linked-list shape.  Strategy 6 reads `target._value` OUTSIDE any try/catch;
a throwing read there propagates out (hence the `Except` result). -/
def lookupStoreProperty (pt : PiniaTracker) (w : World) (target : Option Nat)
    (eff : Option EffectH) : Except Unit (Option StorePropertyInfo) :=
  let s1 := target.bind (fun tid => pt.lookupProperty w tid)
  match s1 with
  | some i => .ok (some i)
  | none =>
  let s2 := (eff.bind (·.computed)).bind (fun cid => pt.lookupProperty w cid)
  match s2 with
  | some i => .ok (some i)
  | none =>
  let s3 := (eff.bind (·.fn)).bind (fun fid => pt.lookupProperty w fid)
  match s3 with
  | some i => .ok (some i)
  | none =>
  let s4 :=
    match eff with
    | some e =>
      e.deps.findSome? (fun d =>
        (d.computed.bind (fun cid => pt.lookupProperty w cid)) <|>
        (d.target.bind (fun did => pt.lookupProperty w did)))
    | none => none
  match s4 with
  | some i => .ok (some i)
  | none =>
  match target with
  | some tid =>
    let t := getObj w tid
    match readUv t with
    | .thrown => .error ()
    | .val v =>
      if v ≠ .undefined ∧ t.effectH.isSome then .ok (pt.lookupProperty w tid)
      else .ok none
  | none => .ok none

/-- Shallow embedding of `RenderRegistry.recordRenderTrigger`
(lines 65-261): classification, no-op detection, array-mutation indexing,
optional Pinia store attribution (overwriting `source`, `key` and — for
getters — old/new values, with `isNoOp` recomputed), and appending the
resulting trigger to the component's pending buffer.  The result is `Except`
because the store-lookup path can propagate a thrown `_value` read (see
`lookupStoreProperty`). -/
def recordRenderTrigger (st : RegState) (w : World) (componentId : String)
    (ev : DbgEvent) : Except Unit RegState :=
  if st.isPaused then .ok st
  else
    let c := classifyPhase w ev
    let isNoOp0 := detectNoOp w c.oldValue c.newValue
    let arrayIndex0 : Option String :=
      if isArrayMutationB c.type c.key then
        match c.key with
        | some (.str s) => some s
        | _ => none
      else none
    let storeStep : Except Unit (ClassifyRes × Bool × Option String ×
        Option String × Option String × Option PropKind) :=
      match st.piniaTracker with
      | none => .ok (c, isNoOp0, arrayIndex0, none, none, none)
      | some pt =>
        match lookupStoreProperty pt w ev.target ev.effect with
        | .error e => .error e
        | .ok info0 =>
          let info :=
            match info0 with
            | some i => some i
            | none =>
              if c.type = some "get" then pt.lookupByValue w c.newValue "get"
              else none
          match info with
          | none => .ok (c, isNoOp0, arrayIndex0, none, none, none)
          | some i =>
            let originalKey := c.key
            let isArrayMutation2 := isArrayMutationB c.type originalKey
            let key' := some (JsKey.str i.propName)
            let resolved :=
              if i.propType = .getter then
                let p := pt.getGetterValueWithOld w i.storeId i.propName
                (p.1, p.2, detectNoOp w p.1 p.2)
              else (c.oldValue, c.newValue, isNoOp0)
            let arrayIndex' :=
              if isArrayMutation2 then
                match originalKey with
                | some (.str s) => some s
                | _ => arrayIndex0
              else arrayIndex0
            .ok ({ c with
                    oldValue := resolved.1
                    newValue := resolved.2.1
                    key := key'
                    source := .store },
                 resolved.2.2, arrayIndex', some i.storeId, some i.propName,
                 some i.propType)
    match storeStep with
    | .error e => .error e
    | .ok (c', isNoOp', arrayIndex', sid, spn, spt) =>
      let trigger : Trigger :=
        { key := c'.key, type := c'.type, oldValue := c'.oldValue,
          newValue := c'.newValue, isNoOp := isNoOp', source := c'.source,
          path := buildPath w ev.target c'.key sid,
          storeId := sid, storePropName := spn, storePropType := spt,
          arrayIndex := arrayIndex', computedRef := c'.computedRef }
      let cur := (aget st.pendingTriggers componentId).getD []
      .ok { st with
            pendingTriggers := aset st.pendingTriggers componentId (cur ++ [trigger]) }

/-- Deferred computed-value resolution performed by `finalizeRender`
(lines 350-364): for triggers carrying a computed ref with
`source == 'computed'`, read `.value` now; on success update `newValue` and
recompute `isNoOp`; on a thrown read set the sentinel
`'[error reading computed]'` (without recomputing `isNoOp`); clear the
internal reference either way. -/
def resolveDeferred (w : World) (t : Trigger) : Trigger :=
  match t.computedRef with
  | some cid =>
    if t.source = .computed then
      match readValueProp (getObj w cid) with
      | .val v =>
        { t with
          newValue := v
          isNoOp := detectNoOp w t.oldValue v
          computedRef := none }
      | .thrown =>
        { t with
          newValue := .str "[error reading computed]"
          computedRef := none }
    else t
  | none => t

/-- The `ComponentRenderEvent` constructed by `finalizeRender`
(lines 343-383) before the throttling check: deferred computed values
resolved, the initial-render flag read, and the per-name render count read
(before it is incremented). -/
def buildEvent (st : RegState) (w : World) (componentId componentName : String)
    (now : Nat) : Event :=
  let triggers :=
    ((aget st.pendingTriggers componentId).getD []).map (resolveDeferred w)
  { componentName := componentName
    componentId := componentId
    timestamp := now
    triggers := triggers
    tracked := (aget st.trackedDeps componentId).getD []
    isInitialRender := !(st.initialRenderComplete.contains componentId)
    rerenderReason := inferReason triggers
    renderCount := (aget st.rendersByComponent componentName).getD 0 }

/-- Shallow embedding of `RenderRegistry.finalizeRender` (lines 340-439),
parameterised by `now` (the source's `Date.now()`). -/
def finalizeRender (st : RegState) (w : World)
    (componentId componentName : String) (now : Nat) :
    RegState × Option Event :=
  if st.isPaused then (st, none)
  else
    let event0 := buildEvent st w componentId componentName now
    let st1 := { st with initialRenderComplete :=
      if st.initialRenderComplete.contains componentId then
        st.initialRenderComplete
      else st.initialRenderComplete ++ [componentId] }
    let throttleOn : Bool :=
      match st.options.throttleMs with
      | some t => decide (0 < t)
      | none => false
    let lastTime := (aget st.lastRenderTime componentId).getD 0
    if throttleOn && decide (now - lastTime < st.options.throttleMs.getD 0) then
      let held' :=
        match aget st.throttledEvents componentId with
        | some existing =>
          aset st.throttledEvents componentId
            { existing with triggers := existing.triggers ++ event0.triggers }
        | none => aset st.throttledEvents componentId event0
      ({ st1 with
          throttledEvents := held'
          pendingTriggers := aerase st.pendingTriggers componentId
          trackedDeps := aerase st.trackedDeps componentId }, none)
    else
      let event1 :=
        if throttleOn then
          match aget st.throttledEvents componentId with
          | some held =>
            { event0 with triggers := held.triggers ++ event0.triggers }
          | none => event0
        else event0
      let throttled' :=
        if throttleOn then aerase st.throttledEvents componentId
        else st.throttledEvents
      let st2 :=
        { st1 with
          lastRenderTime := aset st.lastRenderTime componentId now
          totalRenders := st.totalRenders + 1
          rendersByComponent := aset st.rendersByComponent componentName
            ((aget st.rendersByComponent componentName).getD 0 + 1)
          noOpRenderCount :=
            st.noOpRenderCount +
              (if event1.triggers.any (·.isNoOp) then 1 else 0)
          registry := aset st.registry (componentId ++ "-" ++ toString now) event1
          throttledEvents := throttled'
          piniaTracker := st.piniaTracker.map (fun pt => pt.snapshotAllGetterValues w)
          pendingTriggers := aerase st.pendingTriggers componentId
          trackedDeps := aerase st.trackedDeps componentId }
      (st2, some event1)

/-- Shallow embedding of `RenderRegistry.pause` (lines 576-578). -/
def pause (st : RegState) : RegState :=
  { st with isPaused := true }

/-- Shallow embedding of `RenderRegistry.resume` (lines 580-582). -/
def resume (st : RegState) : RegState :=
  { st with isPaused := false }

/-- Shallow embedding of `RenderRegistry.reset` (lines 584-594).  The source
clears buffers and statistics but not the pause flag or the Pinia tracker. -/
def reset (st : RegState) : RegState :=
  { st with
    registry := []
    trackedDeps := []
    pendingTriggers := []
    totalRenders := 0
    rendersByComponent := []
    noOpRenderCount := 0
    lastRenderTime := []
    throttledEvents := []
    initialRenderComplete := [] }

/-- Shallow embedding of `RenderRegistry.cleanupComponent`
(lines 600-606). -/
def cleanupComponent (st : RegState) (componentId : String) : RegState :=
  { st with
    trackedDeps := aerase st.trackedDeps componentId
    pendingTriggers := aerase st.pendingTriggers componentId
    lastRenderTime := aerase st.lastRenderTime componentId
    throttledEvents := aerase st.throttledEvents componentId
    initialRenderComplete :=
      st.initialRenderComplete.filter (fun s => decide (s ≠ componentId)) }

/-- Insertion into a list sorted by descending count, modelling the stable
sort with comparator `(a, b) => b[1] - a[1]` of line 616. -/
def insertByCountDesc (p : String × Nat) :
    List (String × Nat) → List (String × Nat)
  | [] => [p]
  | q :: t => if q.2 < p.2 then p :: q :: t else q :: insertByCountDesc p t

/-- Stable sort by descending count (line 615-617). -/
def sortByCountDesc (l : List (String × Nat)) : List (String × Nat) :=
  l.foldl (fun acc p => insertByCountDesc p acc) []

/-- The `RenderStats` snapshot; the `avgMs` member of `mostExpensive`
entries is constantly 0 in the source and is omitted here. -/
structure RenderStats where
  totalRenders : Nat := 0
  byComponent : List (String × Nat) := []
  mostExpensive : List (String × Nat) := []
  noOpRenders : Nat := 0
deriving DecidableEq, Repr, Inhabited

/-- Shallow embedding of `RenderRegistry.getStats` (lines 608-631). -/
def getStats (st : RegState) : RenderStats :=
  { totalRenders := st.totalRenders
    byComponent := st.rendersByComponent
    mostExpensive := (sortByCountDesc st.rendersByComponent).take 10
    noOpRenders := st.noOpRenderCount }

/-- Sum of the per-component render counters. -/
def sumCounts (m : List (String × Nat)) : Nat :=
  (m.map Prod.snd).sum

/-- The statistics invariant of claim C10: the total render counter equals
the sum of the per-component counters. -/
abbrev StatsInv (st : RegState) : Prop :=
  st.totalRenders = sumCounts st.rendersByComponent

/-- The re-render-reason rule exactly as the specification words it (for
comparison with the source's `inferReason` and with emitted events): initial
if the trigger list is empty, else store-change if any trigger's source is
the store, else prop-change if any trigger's source is the external-input
source, else state-change. -/
def reasonSpec (triggers : List Trigger) : Reason :=
  if triggers.isEmpty then .initial
  else if triggers.any (fun t => t.source == .store) then .storeChange
  else if triggers.any (fun t => t.source == .prop) then .propChange
  else .stateChange

/-- Unpack a non-throwing registry step (used to build concrete runs). -/
def okOr (r : Except Unit RegState) (d : RegState) : RegState :=
  match r with
  | .ok s => s
  | .error _ => d

/-- Pending triggers of a component after a (non-throwing) record step. -/
def pendingOf (r : Except Unit RegState) (componentId : String) : List Trigger :=
  match r with
  | .ok s => (aget s.pendingTriggers componentId).getD []
  | .error _ => []

/-- Whether a value is a (sentinel) string. -/
def isStrValue : Value → Bool
  | .str _ => true
  | _ => false

/-- Concrete world for the claim-C9 counterexample: two plain objects whose
key sets differ (`a` versus `b`) but whose sole values are both
`undefined`. -/
def cexWorldC9 : World :=
  [(0, { fields := [("a", .undefined)] }), (1, { fields := [("b", .undefined)] })]

/-- Concrete world for the claim-C1 counterexample: a ref whose `_value`
backing field throws on read. -/
def cexWorldC1 : World :=
  [(10, { isRefFlag := true, uv := some .thrown })]

/-- Concrete event for the claim-C1 counterexample: a `set` on the throwing
ref with both values absent, forcing the backfilling `_value` read. -/
def cexEventC1 : DbgEvent :=
  { target := some 10, type := some "set" }

/-- Fresh registry with a 100 ms throttle (used by the C4 and C6
counterexamples). -/
def throttledFresh : RegState :=
  RenderRegistry.new { throttleMs := some 100 }

/-- C4 counterexample, step 1: a first (unthrottled) emission at t=1000. -/
def cexC4afterEmit : RegState :=
  (finalizeRender throttledFresh [] "a" "A" 1000).1

/-- C4 counterexample, step 2: pause and immediately resume. -/
def cexC4afterResume : RegState :=
  resume (pause cexC4afterEmit)

/-- Concrete world for the claim-C6 counterexample: object 20 carries a
truthy `$id` (so `inferSource` classifies it as a store), object 21 is a
plain ref. -/
def cexWorldC6 : World :=
  [(20, { fields := [("$id", .str "cart")] }),
   (21, { isRefFlag := true, uv := some (.val (.num 1)) })]

/-- C6 counterexample, step 1: first emission at t=1000 (sets the last-emit
time). -/
def cexC6s1 : RegState :=
  (finalizeRender throttledFresh cexWorldC6 "a" "A" 1000).1

/-- C6 counterexample, step 2: record a store-sourced trigger. -/
def cexC6s2 : RegState :=
  okOr (recordRenderTrigger cexC6s1 cexWorldC6 "a"
    { target := some 20, type := some "set", key := some (.str "items"),
      oldValue := .num 1, newValue := .num 2 }) cexC6s1

/-- C6 counterexample, step 3: a throttled finalize at t=1050 holds the
store trigger. -/
def cexC6s3 : RegState :=
  (finalizeRender cexC6s2 cexWorldC6 "a" "A" 1050).1

/-- C6 counterexample, step 4: record a ref-sourced trigger. -/
def cexC6s4 : RegState :=
  okOr (recordRenderTrigger cexC6s3 cexWorldC6 "a"
    { target := some 21, type := some "set", key := some (.str "value"),
      oldValue := .num 1, newValue := .num 2 }) cexC6s3

/-- C6 counterexample, step 5: the emitting finalize at t=1100 (the throttle
interval has elapsed; the held store trigger is prepended). -/
def cexC6res : RegState × Option Event :=
  finalizeRender cexC6s4 cexWorldC6 "a" "A" 1100

/-- Concrete world for the C3 witness: store object 1 whose `$state`
(object 2) holds `count`, with getter `double` (current value 4) and action
`inc`. -/
def witWorldC3 : World :=
  [(1, { fields := [("$state", .obj 2), ("count", .num 2),
                    ("double", .num 4), ("inc", .func 9)] }),
   (2, { fields := [("count", .num 2)] })]

/-- Concrete tracker for the C3 witness: the store is registered and the
cache holds the previous snapshot of `double`. -/
def witTrackerC3 : PiniaTracker :=
  { registeredStores := [("s", 1)], getterValueCache := [("s.double", .num 2)] }

/-- Concrete world for the C1 witness: a computed whose `.value` read throws
during deferred resolution. -/
def witWorldC1 : World :=
  [(11, { valueProp := some .thrown })]

/-- Concrete world for the C7 witness: a dependency node pointing at a plain
object (neither a computed nor a ref), so the walk yields nothing. -/
def witWorldC7 : World :=
  [(5, {})]

/-- Concrete effect for the C7 witness. -/
def witEffectC7 : EffectH :=
  { deps := [{ target := some 5 }] }

/-- Concrete state for the C2 witness: one prior emission for "a" at t=1000
under a 100 ms throttle, with one pending trigger. -/
def witC2base : RegState :=
  okOr (recordRenderTrigger cexC4afterEmit cexWorldC6 "a"
    { target := some 21, type := some "set", key := some (.str "value"),
      oldValue := .num 1, newValue := .num 2 }) cexC4afterEmit

/-- C2 witness, held state: the throttled finalize at t=1050. -/
def witC2held : RegState :=
  (finalizeRender witC2base cexWorldC6 "a" "A" 1050).1

/-- Concrete state for the C6 witness: a fresh registry (no throttle) with
one pending ref trigger. -/
def witC6state : RegState :=
  okOr (recordRenderTrigger (RenderRegistry.new {}) cexWorldC6 "a"
    { target := some 21, type := some "set", key := some (.str "value"),
      oldValue := .num 1, newValue := .num 2 }) (RenderRegistry.new {})

/-! ### Helper lemmas about the association-list operations -/

theorem aget_aset_self {α β : Type} [DecidableEq α] (m : List (α × β)) (k : α) (v : β) :
    aget (aset m k v) k = some v := by
  induction m with
  | nil => simp [aset, aget]
  | cons p t ih =>
    obtain ⟨a, b⟩ := p
    by_cases h : a = k <;> simp [aset, aget, h, ih]

theorem aget_aset_ne {α β : Type} [DecidableEq α] (m : List (α × β)) (k k' : α) (v : β)
    (h : k' ≠ k) : aget (aset m k v) k' = aget m k' := by
  induction m with
  | nil => simp [aset, aget, Ne.symm h]
  | cons p t ih =>
    obtain ⟨a, b⟩ := p
    by_cases hak : a = k
    · subst hak
      simp [aset, aget, Ne.symm h]
    · simp [aset, aget, hak, ih]

theorem aget_aerase_self {α β : Type} [DecidableEq α] (m : List (α × β)) (k : α) :
    aget (aerase m k) k = none := by
  induction m with
  | nil => rfl
  | cons p t ih =>
    obtain ⟨a, b⟩ := p
    by_cases h : a = k <;>
      simp [aerase, List.filter_cons, aget, h] at ih ⊢ <;> simpa [aerase] using ih

theorem sumCounts_aset (m : List (String × Nat)) (k : String) :
    sumCounts (aset m k ((aget m k).getD 0 + 1)) = sumCounts m + 1 := by
  induction m with
  | nil => simp [aset, aget, sumCounts]
  | cons p t ih =>
    obtain ⟨a, b⟩ := p
    by_cases h : a = k
    · subst h
      simp [aset, aget, sumCounts]
      omega
    · simp only [aset, aget, if_neg h, sumCounts, List.map_cons, List.sum_cons] at ih ⊢
      omega

theorem contains_append_self (l : List String) (a : String) :
    (l ++ [a]).contains a = true := by
  induction l with
  | nil => simp [List.contains, List.elem]
  | cons h t ih =>
    simp only [List.cons_append, List.contains, List.elem]
    cases hah : a == h
    · simpa [List.contains, List.elem] using ih
    · rfl

/-! ### Claim C8: base cases of the equivalence detector -/

/-- C8: for every pair with `old === new` (reference or primitive equality)
`detectNoOp` returns true, except when both are `undefined` where it returns
false; `detectNoOp(null, null)` is true; a pair with exactly one `undefined`
side is never a no-op. -/
theorem detectNoOp_base_C8 (w : World) (o n : Value) :
    (o = n → detectNoOp w o n = !(o == Value.undefined))
    ∧ detectNoOp w .vnull .vnull = true
    ∧ (n ≠ .undefined → detectNoOp w .undefined n = false)
    ∧ (o ≠ .undefined → detectNoOp w o .undefined = false) := by
  refine ⟨?_, ?_, ?_, ?_⟩
  · rintro rfl
    cases o <;> simp [detectNoOp]
  · simp [detectNoOp]
  · intro h
    simp [detectNoOp, h, Ne.symm h]
  · intro h
    simp [detectNoOp, h]

/-- Witness for C8 at concrete inputs. -/
theorem detectNoOp_base_C8_witness :
    detectNoOp [] (.num 5) (.num 5) = true
    ∧ detectNoOp [] .undefined (.num 7) = false
    ∧ detectNoOp [] (.str "x") .undefined = false := by
  refine ⟨?_, ?_, ?_⟩
  · exact ((detectNoOp_base_C8 [] (.num 5) (.num 5)).1 rfl).trans (by decide)
  · exact (detectNoOp_base_C8 [] (.num 5) (.num 7)).2.2.1 (by decide)
  · exact (detectNoOp_base_C8 [] (.str "x") (.num 5)).2.2.2 (by decide)

/-! ### Claim C9: plain-object comparison of the equivalence detector -/

/-- C9 counterexample: two plain objects whose key sets differ (`a` versus
`b`) are nonetheless reported as a no-op, because the source compares key
COUNTS and then reads the old object's keys out of the new object (absent
keys reading as `undefined`). -/
theorem detectNoOp_keyset_cex_C9 :
    detectNoOp cexWorldC9 (.obj 0) (.obj 1) = true
    ∧ objKeys cexWorldC9 (toRaw cexWorldC9 (.obj 0)) = ["a"]
    ∧ objKeys cexWorldC9 (toRaw cexWorldC9 (.obj 1)) = ["b"] := by
  decide

/-- C9 amended: for two distinct plain (non-array) keyed objects,
`detectNoOp` returns true iff the key counts agree and, for every key of the
old object, the unwrapped old value strictly equals the unwrapped value of
the new object at that key (absent keys reading as `undefined`).  Identical
key sets with pairwise-equal values are therefore a no-op; differing key
sets are not a no-op unless every non-shared key holds `undefined`. -/
theorem detectNoOp_plain_C9_amended (w : World) (i j : Nat) (hij : i ≠ j)
    (hi : isArrayV w (toRaw w (.obj i)) = false)
    (hj : isArrayV w (toRaw w (.obj j)) = false) :
    detectNoOp w (.obj i) (.obj j) =
      ((objKeys w (toRaw w (.obj i))).length == (objKeys w (toRaw w (.obj j))).length
        && (objKeys w (toRaw w (.obj i))).all
            (fun k => toRaw w (objGet w (toRaw w (.obj i)) k)
              == toRaw w (objGet w (toRaw w (.obj j)) k))) := by
  have h1 : ¬(Value.obj i = .undefined ∧ Value.obj j = .undefined) := by simp
  have h2 : ¬(Value.obj i = .vnull ∧ Value.obj j = .vnull) := by simp
  have h3 : ¬(Value.obj i = Value.obj j) := by simpa using hij
  have h4 : ¬(Value.obj i = .undefined ∨ Value.obj j = .undefined) := by simp
  have h5 : ¬(typeOf (Value.obj i) ≠ typeOf (Value.obj j)) := by simp [typeOf]
  have h6 : typeOf (Value.obj i) = "object" ∧ Value.obj i ≠ .vnull ∧ Value.obj j ≠ .vnull := by
    simp [typeOf]
  simp only [detectNoOp, if_neg h1, if_neg h2, if_neg h3, if_neg h4, if_neg h5, if_pos h6]
  rw [if_neg (by simp [hi])]
  by_cases hlen : (objKeys w (toRaw w (.obj i))).length = (objKeys w (toRaw w (.obj j))).length
  · simp [hlen]
  · simp [hlen, beq_eq_false_iff_ne, Ne.symm]

/-! ### Claim C3: getter snapshot cache semantics -/

theorem cacheKey_inj (sid q p : String) (h : sid ++ "." ++ q = sid ++ "." ++ p) :
    q = p := by
  have hd : (sid ++ "." ++ q).data = (sid ++ "." ++ p).data := congrArg String.data h
  simp only [String.data_append, List.append_assoc] at hd
  have h2 := List.append_cancel_left hd
  have h3 : q.data = p.data := by
    simpa using h2
  cases q
  cases p
  exact congrArg String.mk h3

theorem aget_foldl_snapStep_ne (stateKeys : List String) (sid key : String) :
    ∀ (flds : List (String × Value)) (c : List (String × Value)),
      (∀ q ∈ flds.map Prod.fst, sid ++ "." ++ q ≠ key) →
      aget (flds.foldl (snapStep stateKeys sid) c) key = aget c key := by
  intro flds
  induction flds with
  | nil => intro c _; rfl
  | cons pv rest ih =>
    intro c hq
    simp only [List.foldl_cons]
    rw [ih _ (fun q hqmem => hq q (by simp [hqmem]))]
    unfold snapStep
    split_ifs
    · rfl
    · rfl
    · rfl
    · exact aget_aset_ne _ _ _ _ (fun hk => hq pv.1 (by simp) hk.symm)

theorem aget_foldl_snapStep_mem (stateKeys : List String) (sid p : String) (v : Value) :
    ∀ (flds : List (String × Value)) (c : List (String × Value)),
      (flds.map Prod.fst).Nodup → (p, v) ∈ flds →
      startsWithChar p '$' = false → startsWithChar p '_' = false →
      typeOf v ≠ "function" → stateKeys.contains p = false →
      aget (flds.foldl (snapStep stateKeys sid) c) (sid ++ "." ++ p) = some v := by
  intro flds
  induction flds with
  | nil => intro c _ hmem; cases hmem
  | cons pv rest ih =>
    intro c hnodup hmem h1 h2 h3 h4
    simp only [List.map_cons, List.nodup_cons] at hnodup
    rcases List.mem_cons.mp hmem with heq | hmem2
    · subst heq
      simp only [List.foldl_cons]
      rw [aget_foldl_snapStep_ne]
      · unfold snapStep
        rw [if_neg (by simp [h1, h2]), if_neg (by simpa using h3),
            if_neg (by simpa using h4)]
        exact aget_aset_self _ _ _
      · intro q hqmem hkey
        exact hnodup.1 ((cacheKey_inj sid q p hkey) ▸ hqmem)
    · simp only [List.foldl_cons]
      exact ih _ hnodup.2 hmem2 h1 h2 h3 h4

/-- C3: `getGetterValueWithOld` returns the cached snapshot as `oldValue`
(a value independent of the current world, hence identical across any
number of calls between two snapshot operations) and never updates the
cache; the cached `oldValue` changes only when the snapshot operation runs,
after which it equals the getter value the store exposed at snapshot
time. -/
theorem getter_cache_C3 (pt : PiniaTracker) (w w2 : World) (sid p : String)
    (soid : Nat) (v : Value)
    (hreg : aget pt.registeredStores sid = some soid)
    (hnodup : ((getObj w soid).fields.map Prod.fst).Nodup)
    (hmem : (p, v) ∈ (getObj w soid).fields)
    (h1 : startsWithChar p '$' = false) (h2 : startsWithChar p '_' = false)
    (h3 : typeOf v ≠ "function")
    (h4 : (stateKeysOf w (getObj w soid)).contains p = false) :
    (pt.getGetterValueWithOld w sid p).1 =
        (aget pt.getterValueCache (sid ++ "." ++ p)).getD .undefined
    ∧ (pt.getGetterValueWithOld w sid p).1 = (pt.getGetterValueWithOld w2 sid p).1
    ∧ aget (pt.snapshotGetterValues w sid).getterValueCache (sid ++ "." ++ p) = some v
    ∧ ((pt.snapshotGetterValues w sid).getGetterValueWithOld w2 sid p).1 = v := by
  have hsnap : aget (pt.snapshotGetterValues w sid).getterValueCache
      (sid ++ "." ++ p) = some v := by
    unfold PiniaTracker.snapshotGetterValues
    rw [hreg]
    exact aget_foldl_snapStep_mem _ _ _ _ _ _ hnodup hmem h1 h2 h3 h4
  refine ⟨rfl, rfl, hsnap, ?_⟩
  show (aget (pt.snapshotGetterValues w sid).getterValueCache
      (sid ++ "." ++ p)).getD .undefined = v
  rw [hsnap]
  rfl

/-- Witness for C3 at a concrete tracker and store. -/
theorem getter_cache_C3_witness :
    (witTrackerC3.getGetterValueWithOld witWorldC3 "s" "double").1 =
        (aget witTrackerC3.getterValueCache ("s" ++ "." ++ "double")).getD .undefined
    ∧ (witTrackerC3.getGetterValueWithOld witWorldC3 "s" "double").1 =
        (witTrackerC3.getGetterValueWithOld witWorldC3 "s" "double").1
    ∧ aget (witTrackerC3.snapshotGetterValues witWorldC3 "s").getterValueCache
        ("s" ++ "." ++ "double") = some (.num 4)
    ∧ ((witTrackerC3.snapshotGetterValues witWorldC3 "s").getGetterValueWithOld
        witWorldC3 "s" "double").1 = .num 4 :=
  getter_cache_C3 witTrackerC3 witWorldC3 witWorldC3 "s" "double" 1 (.num 4)
    (by decide) (by decide) (by decide) (by decide) (by decide) (by decide) (by decide)

/-- Witness for the amended C9 at the counterexample world. -/
theorem detectNoOp_plain_C9_amended_witness :
    detectNoOp cexWorldC9 (.obj 0) (.obj 1) =
      ((objKeys cexWorldC9 (toRaw cexWorldC9 (.obj 0))).length ==
          (objKeys cexWorldC9 (toRaw cexWorldC9 (.obj 1))).length
        && (objKeys cexWorldC9 (toRaw cexWorldC9 (.obj 0))).all
            (fun k => toRaw cexWorldC9 (objGet cexWorldC9 (toRaw cexWorldC9 (.obj 0)) k)
              == toRaw cexWorldC9 (objGet cexWorldC9 (toRaw cexWorldC9 (.obj 1)) k))) :=
  detectNoOp_plain_C9_amended cexWorldC9 0 1 (by decide) (by decide) (by decide)

/-! ### Claim C7: fallback classification for effect-only events -/

/-- C7: a change notification without target but with an effect handle whose
dependency walk yields no dependency exposing a value cell or computation
handle produces a trigger with `source = 'computed'`, `key = "dependency"`,
`kind = 'change'` and the sentinel `'[dependency changed]'` as `newValue`
(stated for registries without a store resolver, matching the classifier
contract prior to store attribution). -/
theorem fallback_trigger_C7 (st : RegState) (w : World) (cid : String)
    (ev : DbgEvent) (eff : EffectH)
    (hp : st.isPaused = false) (ht : st.piniaTracker = none)
    (htarget : ev.target = none) (heff : ev.effect = some eff)
    (hwalk : walkDeps w eff.deps = none) :
    ∃ t : Trigger,
      recordRenderTrigger st w cid ev =
        .ok { st with pendingTriggers := aset st.pendingTriggers cid ((aget st.pendingTriggers cid).getD [] ++ [t]) }
      ∧ t.source = .computed
      ∧ t.key = some (.str "dependency")
      ∧ t.type = some "change"
      ∧ t.newValue = .str "[dependency changed]" := by
  have hc : classifyPhase w ev =
      { oldValue := ev.oldValue, newValue := .str "[dependency changed]",
        key := some (.str "dependency"), type := some "change",
        source := .computed, computedRef := none } := by
    simp only [classifyPhase, htarget, heff, hwalk]
  simp only [recordRenderTrigger, hp, ht, hc, if_false]
  exact ⟨_, rfl, rfl, rfl, rfl, rfl⟩

/-- Witness for C7 at a concrete effect whose only dependency is a plain
object. -/
theorem fallback_trigger_C7_witness :
    ∃ t : Trigger,
      recordRenderTrigger (RenderRegistry.new {}) witWorldC7 "a"
          { effect := some witEffectC7 } =
        .ok { (RenderRegistry.new {}) with pendingTriggers := aset (RenderRegistry.new {}).pendingTriggers "a" ((aget (RenderRegistry.new {}).pendingTriggers "a").getD [] ++ [t]) }
      ∧ t.source = .computed
      ∧ t.key = some (.str "dependency")
      ∧ t.type = some "change"
      ∧ t.newValue = .str "[dependency changed]" :=
  fallback_trigger_C7 (RenderRegistry.new {}) witWorldC7 "a"
    { effect := some witEffectC7 } witEffectC7 rfl rfl rfl rfl (by decide)

/-! ### Claim C1: exception containment in classification -/

/-- C1 counterexample: a `set` event on a ref whose `_value` backing field
throws.  The exception is caught and classification proceeds, but the
resulting trigger's values are `undefined`, NOT a sentinel string — the
sentinel `'[error reading computed]'` is used only by `finalizeRender`'s
deferred resolution. -/
theorem classify_exception_cex_C1 :
    readUv (getObj cexWorldC1 10) = .thrown
    ∧ (pendingOf (recordRenderTrigger (RenderRegistry.new {}) cexWorldC1 "a"
          cexEventC1) "a").map (fun t => (t.oldValue, t.newValue)) =
        [(Value.undefined, Value.undefined)]
    ∧ isStrValue Value.undefined = false := by
  decide

/-- C1 amended: with store tracking disabled, `recordRenderTrigger` never
raises and always appends exactly one trigger; an exception thrown while
reading a backing value during classification is caught and the affected
values degrade to `undefined` (not a sentinel string), while a thrown read
during `finalizeRender`'s deferred resolution is caught and replaced by the
sentinel string `'[error reading computed]'`. -/
theorem record_no_raise_C1_amended (st : RegState) (w : World) (cid : String)
    (ev : DbgEvent) (hp : st.isPaused = false) (ht : st.piniaTracker = none) :
    (∃ t : Trigger,
        recordRenderTrigger st w cid ev =
          .ok { st with pendingTriggers := aset st.pendingTriggers cid ((aget st.pendingTriggers cid).getD [] ++ [t]) }
        ∧ (∀ tid : Nat, ev.target = some tid →
             ((getObj w tid).isComputedFlag || (getObj w tid).effectH.isSome) = true →
             ev.oldValue = .undefined → ev.newValue = .undefined →
             readUv (getObj w tid) = .thrown →
             t.oldValue = .undefined ∧ t.newValue = .undefined))
    ∧ (∀ (tr : Trigger) (cid2 : Nat), tr.computedRef = some cid2 →
         tr.source = .computed → readValueProp (getObj w cid2) = .thrown →
         (resolveDeferred w tr).newValue = .str "[error reading computed]") := by
  constructor
  · simp only [recordRenderTrigger, hp, ht, if_false]
    refine ⟨_, rfl, ?_⟩
    intro tid htid hcomp hold hnew hthrow
    have hc : classifyPhase w ev =
        { oldValue := .undefined, newValue := .undefined,
          key := some (ev.key.getD (.str "value")),
          type := some (ev.type.getD "get"),
          source := .computed, computedRef := some tid } := by
      simp only [classifyPhase, htid, hcomp, hold, hnew, hthrow]
      simp
    simp [hc]
  · intro tr cid2 hcr hsrc hthrow
    simp [resolveDeferred, hcr, hsrc, hthrow]

/-- Witness for the amended C1: the deferred-resolution sentinel at a
concrete throwing computed. -/
theorem record_no_raise_C1_amended_witness :
    (resolveDeferred witWorldC1
        { computedRef := some 11, source := .computed }).newValue =
      .str "[error reading computed]" :=
  (record_no_raise_C1_amended (RenderRegistry.new {}) witWorldC1 "a" {} rfl rfl).2
    { computedRef := some 11, source := .computed } 11 rfl rfl (by decide)

/-! ### Claim C4: pause and resume semantics -/

/-- C4 counterexample: immediately after `resume()`, emission is NOT
necessarily non-null — with a 100 ms throttle and a previous emission at
t=1000, the first post-resume `finalizeRender` at t=1050 is throttled and
returns null even though the registry is no longer paused. -/
theorem pause_resume_cex_C4 :
    cexC4afterResume.isPaused = false
    ∧ (finalizeRender cexC4afterResume [] "a" "A" 1050).2 = none := by
  decide

/-- C4 amended: while paused, `recordTrackedDependency`, `recordRenderTrigger`
and `finalizeRender` leave the registry state unchanged (so no trigger
recorded while paused can appear in any later event) and `finalizeRender`
returns null; `resume()` clears the pause flag, and emission is non-null
again whenever throttling does not suppress it — always when no throttle
interval is configured, and otherwise as soon as the interval has elapsed
since the component's last emission. -/
theorem paused_noop_C4_amended (st : RegState) (w : World) (cid name : String)
    (ev : DbgEvent) (now : Nat) (hp : st.isPaused = true) :
    recordTrackedDependency st cid ev = st
    ∧ recordRenderTrigger st w cid ev = .ok st
    ∧ finalizeRender st w cid name now = (st, none)
    ∧ (resume st).isPaused = false
    ∧ (∀ st2 : RegState, st2.isPaused = false → st2.options.throttleMs = none →
        ((finalizeRender st2 w cid name now).2).isSome = true)
    ∧ (∀ (st2 : RegState) (T lt : Nat), st2.isPaused = false →
        st2.options.throttleMs = some T → aget st2.lastRenderTime cid = some lt →
        T ≤ now - lt → ((finalizeRender st2 w cid name now).2).isSome = true) := by
  refine ⟨?_, ?_, ?_, rfl, ?_, ?_⟩
  · simp [recordTrackedDependency, hp]
  · simp [recordRenderTrigger, hp]
  · simp [finalizeRender, hp]
  · intro st2 h2p h2t
    simp [finalizeRender, h2p, h2t]
  · intro st2 T lt h2p h2t hlt hT
    have hnl : ¬(now - lt < T) := Nat.not_lt.mpr hT
    simp [finalizeRender, h2p, h2t, hlt, hnl]

/-- Witness for the amended C4 at a concrete paused registry. -/
theorem paused_noop_C4_amended_witness :
    recordTrackedDependency (pause (RenderRegistry.new {})) "a" {} =
      pause (RenderRegistry.new {})
    ∧ (finalizeRender (pause (RenderRegistry.new {})) [] "a" "A" 5).2 = none := by
  have h := paused_noop_C4_amended (pause (RenderRegistry.new {})) [] "a" "A" {} 5 rfl
  exact ⟨h.1, by rw [h.2.2.1]⟩

/-! ### Claim C5: initial-render flag and reset -/

theorem finalizeRender_isInitial (st : RegState) (w : World)
    (cid name : String) (now : Nat) (ev : Event) (hp : st.isPaused = false)
    (h : (finalizeRender st w cid name now).2 = some ev) :
    ev.isInitialRender = !(st.initialRenderComplete.contains cid) := by
  simp only [finalizeRender, hp, Bool.false_eq_true, if_false] at h
  split at h
  · simp at h
  · simp only [Option.some.injEq] at h
    rw [← h]
    split
    · split
      · rfl
      · rfl
    · rfl

theorem finalizeRender_contains (st : RegState) (w : World)
    (cid name : String) (now : Nat) (hp : st.isPaused = false) :
    ((finalizeRender st w cid name now).1.initialRenderComplete.contains cid) = true := by
  have hirc : (finalizeRender st w cid name now).1.initialRenderComplete =
      (if st.initialRenderComplete.contains cid then st.initialRenderComplete
       else st.initialRenderComplete ++ [cid]) := by
    simp only [finalizeRender, hp, Bool.false_eq_true, if_false]
    split
    · rfl
    · rfl
  rw [hirc]
  by_cases hc : st.initialRenderComplete.contains cid = true
  · rw [if_pos hc]
    exact hc
  · rw [if_neg (by simpa using hc)]
    exact contains_append_self _ _

theorem recordRenderTrigger_ok_shape (st : RegState) (w : World) (cid : String)
    (ev : DbgEvent) (st2 : RegState)
    (h : recordRenderTrigger st w cid ev = .ok st2) :
    st2.initialRenderComplete = st.initialRenderComplete
    ∧ st2.totalRenders = st.totalRenders
    ∧ st2.rendersByComponent = st.rendersByComponent
    ∧ st2.noOpRenderCount = st.noOpRenderCount := by
  by_cases hp : st.isPaused
  · simp only [recordRenderTrigger, hp, if_true, Except.ok.injEq] at h
    subst h
    exact ⟨rfl, rfl, rfl, rfl⟩
  · simp only [recordRenderTrigger, hp, Bool.false_eq_true, if_false] at h
    split at h
    · cases h
    · simp only [Except.ok.injEq] at h
      subst h
      exact ⟨rfl, rfl, rfl, rfl⟩

/-- C5: the first unpaused `finalizeRender` for a component id emits (when it
emits) an event with `isInitialRender = true` and marks the id as having
rendered; later unpaused calls for an already-marked id emit
`isInitialRender = false`; recording operations never change the mark; and
`reset()` restores zero statistics, an empty per-component table and an
empty mark set, so a previously-seen id is initial again. -/
theorem initial_flag_C5 (o : Options) (st : RegState) (w : World)
    (cid name : String) (now : Nat) (ev : Event) (dev : DbgEvent) :
    (RenderRegistry.new o).initialRenderComplete = []
    ∧ (st.isPaused = false → st.initialRenderComplete.contains cid = false →
        (finalizeRender st w cid name now).2 = some ev → ev.isInitialRender = true)
    ∧ (st.isPaused = false →
        ((finalizeRender st w cid name now).1.initialRenderComplete.contains cid) = true)
    ∧ (st.isPaused = false → st.initialRenderComplete.contains cid = true →
        (finalizeRender st w cid name now).2 = some ev → ev.isInitialRender = false)
    ∧ (recordTrackedDependency st cid dev).initialRenderComplete =
        st.initialRenderComplete
    ∧ (∀ st2, recordRenderTrigger st w cid dev = .ok st2 →
        st2.initialRenderComplete = st.initialRenderComplete)
    ∧ (reset st).totalRenders = 0
    ∧ (reset st).rendersByComponent = []
    ∧ (reset st).noOpRenderCount = 0
    ∧ (reset st).initialRenderComplete = []
    ∧ (getStats (reset st)).byComponent = [] := by
  refine ⟨rfl, ?_, ?_, ?_, ?_, ?_, rfl, rfl, rfl, rfl, rfl⟩
  · intro hp hc hsome
    rw [finalizeRender_isInitial st w cid name now ev hp hsome, hc]
    rfl
  · intro hp
    exact finalizeRender_contains st w cid name now hp
  · intro hp hc hsome
    rw [finalizeRender_isInitial st w cid name now ev hp hsome, hc]
    rfl
  · by_cases hp : st.isPaused <;> simp [recordTrackedDependency, hp]
  · intro st2 h
    exact (recordRenderTrigger_ok_shape st w cid dev st2 h).1

/-- Witness for C5: a fresh registry treats the first finalize of "a" as
initial, and reset clears the statistics. -/
theorem initial_flag_C5_witness :
    ((finalizeRender (RenderRegistry.new {}) [] "a" "A" 7).2.getD {}).isInitialRender = true
    ∧ (reset (RenderRegistry.new {})).totalRenders = 0 := by
  have h := initial_flag_C5 {} (RenderRegistry.new {}) [] "a" "A" 7
    ((finalizeRender (RenderRegistry.new {}) [] "a" "A" 7).2.getD {}) {}
  exact ⟨h.2.1 rfl rfl (by decide), h.2.2.2.2.2.2.1⟩

/-! ### Claim C2: throttling semantics -/

/-- C2: with a positive throttle interval `T`, an unpaused `finalizeRender`
less than `T` ms after the component's last emission merges the pending
triggers into the held event for that id and returns null with no emission
and no statistics update; a call at or after `T` ms with a held event emits
an event whose trigger list is the held triggers prepended (in order) to the
current triggers, and discards the held event. -/
theorem throttling_C2 (st : RegState) (w : World) (cid name : String)
    (now lt T : Nat)
    (hp : st.isPaused = false)
    (hT : st.options.throttleMs = some T) (hTpos : 0 < T)
    (hlt : aget st.lastRenderTime cid = some lt) :
    (now - lt < T →
       (finalizeRender st w cid name now).2 = none
       ∧ (finalizeRender st w cid name now).1.totalRenders = st.totalRenders
       ∧ (finalizeRender st w cid name now).1.rendersByComponent =
           st.rendersByComponent
       ∧ (finalizeRender st w cid name now).1.noOpRenderCount =
           st.noOpRenderCount
       ∧ (finalizeRender st w cid name now).1.registry = st.registry
       ∧ (finalizeRender st w cid name now).1.lastRenderTime = st.lastRenderTime
       ∧ aget (finalizeRender st w cid name now).1.throttledEvents cid =
           some (match aget st.throttledEvents cid with
                 | some ex => { ex with triggers :=
                     ex.triggers ++ (buildEvent st w cid name now).triggers }
                 | none => buildEvent st w cid name now)
       ∧ aget (finalizeRender st w cid name now).1.pendingTriggers cid = none)
    ∧ (T ≤ now - lt → ∀ held, aget st.throttledEvents cid = some held →
       ∃ ev, (finalizeRender st w cid name now).2 = some ev
         ∧ ev.triggers = held.triggers ++ (buildEvent st w cid name now).triggers
         ∧ aget (finalizeRender st w cid name now).1.throttledEvents cid = none
         ∧ (finalizeRender st w cid name now).1.totalRenders =
             st.totalRenders + 1) := by
  constructor
  · intro hlt2
    have hcond : (decide (0 < T) && decide (now - lt < T)) = true := by
      simp [hTpos, hlt2]
    simp only [finalizeRender, hp, Bool.false_eq_true, if_false, hT, hlt,
      Option.getD_some, hcond, if_true]
    refine ⟨trivial, trivial, trivial, trivial, trivial, trivial, ?_,
      aget_aerase_self _ _⟩
    rcases hte : aget st.throttledEvents cid with _ | ex
    · simp only [hte]
      exact aget_aset_self _ _ _
    · simp only [hte]
      exact aget_aset_self _ _ _
  · intro hge held hheld
    have hnl : decide (now - lt < T) = false := by
      simp [Nat.not_lt.mpr hge]
    simp only [finalizeRender, hp, Bool.false_eq_true, if_false, hT, hlt,
      Option.getD_some, hheld, decide_eq_true hTpos, hnl, Bool.and_false,
      if_true]
    exact ⟨_, rfl, rfl, aget_aerase_self _ _, trivial⟩

/-- Witness for C2: under a 100 ms throttle, a finalize at t=1050 after an
emission at t=1000 is held, and the finalize at t=1100 emits the held
trigger prepended to the current ones. -/
theorem throttling_C2_witness :
    (finalizeRender witC2base cexWorldC6 "a" "A" 1050).2 = none
    ∧ (∃ ev, (finalizeRender witC2held cexWorldC6 "a" "A" 1100).2 = some ev
        ∧ ev.triggers = ((aget witC2held.throttledEvents "a").getD {}).triggers ++
            (buildEvent witC2held cexWorldC6 "a" "A" 1100).triggers) := by
  constructor
  · exact ((throttling_C2 witC2base cexWorldC6 "a" "A" 1050 1000 100 (by decide)
      (by decide) (by decide) (by decide)).1 (by decide)).1
  · obtain ⟨ev, h1, h2, _, _⟩ :=
      (throttling_C2 witC2held cexWorldC6 "a" "A" 1100 1000 100 (by decide)
        (by decide) (by decide) (by decide)).2 (by decide)
        ((aget witC2held.throttledEvents "a").getD {}) (by decide)
    exact ⟨ev, h1, h2⟩

/-! ### Claim C6: derivation of the re-render reason -/

theorem contains_source (l : List Trigger) (s : Source) :
    (l.map (fun t => t.source)).contains s = l.any (fun t => t.source == s) := by
  induction l with
  | nil => rfl
  | cons h t ih =>
    simp only [List.map_cons, List.any_cons]
    by_cases hs : h.source = s
    · simp [List.contains, List.elem, hs]
    · have h1 : (s == h.source) = false := by simp [Ne.symm hs]
      have h2 : (h.source == s) = false := by simp [hs]
      simp only [List.contains, List.elem, h1, h2, Bool.false_or]
      simpa [List.contains] using ih

theorem inferReason_eq_reasonSpec (ts : List Trigger) :
    inferReason ts = reasonSpec ts := by
  unfold inferReason reasonSpec
  by_cases hlen : ts.length = 0
  · have hnil : ts = [] := List.eq_nil_of_length_eq_zero hlen
    subst hnil
    simp
  · have hne : ts.isEmpty = false := by
      cases ts
      · simp at hlen
      · rfl
    simp only [if_neg hlen, hne, Bool.false_eq_true, if_false, contains_source]

/-- C6 counterexample: an emitted event whose trigger list contains a
store-sourced held trigger (prepended by throttling) carries
`rerenderReason = 'state-change'`, although the claimed derivation rule
applied to the emitted event's triggers yields `'store-change'` — the reason
is computed before the held triggers are prepended and is not recomputed. -/
theorem reason_rule_cex_C6 :
    (cexC6res.2.map (fun e => e.rerenderReason)) = some .stateChange
    ∧ (cexC6res.2.map (fun e => reasonSpec e.triggers)) = some .storeChange := by
  decide

/-- C6 amended: for every emitted event, `rerenderReason` is derived by the
claimed rule (initial if empty, else store-change, else prop-change, else
state-change) applied to the CURRENT cycle's resolved pending triggers; when
no held event was prepended, this coincides with the rule applied to the
emitted event's trigger list. -/
theorem reason_rule_C6_amended (st : RegState) (w : World) (cid name : String)
    (now : Nat) (ev : Event)
    (hp : st.isPaused = false)
    (hfin : (finalizeRender st w cid name now).2 = some ev) :
    ev.rerenderReason =
      reasonSpec (((aget st.pendingTriggers cid).getD []).map (resolveDeferred w))
    ∧ (aget st.throttledEvents cid = none →
        ev.rerenderReason = reasonSpec ev.triggers) := by
  have hr : ev.rerenderReason =
      inferReason (((aget st.pendingTriggers cid).getD []).map (resolveDeferred w)) := by
    have h := hfin
    simp only [finalizeRender, hp, Bool.false_eq_true, if_false] at h
    split at h
    · simp at h
    · simp only [Option.some.injEq] at h
      rw [← h]
      split
      · split
        · rfl
        · rfl
      · rfl
  constructor
  · rw [hr, inferReason_eq_reasonSpec]
  · intro hnone
    have htr : ev.triggers =
        ((aget st.pendingTriggers cid).getD []).map (resolveDeferred w) := by
      have h := hfin
      simp only [finalizeRender, hp, Bool.false_eq_true, if_false] at h
      split at h
      · simp at h
      · simp only [Option.some.injEq] at h
        rw [← h]
        split
        · simp only [hnone]
          rfl
        · rfl
    rw [hr, htr, inferReason_eq_reasonSpec]

/-- Witness for the amended C6: an unthrottled emission derives its reason
from its own (= the current) triggers. -/
theorem reason_rule_C6_amended_witness :
    ((finalizeRender witC6state cexWorldC6 "a" "A" 9).2.getD {}).rerenderReason =
      reasonSpec (((aget witC6state.pendingTriggers "a").getD []).map
        (resolveDeferred cexWorldC6))
    ∧ ((finalizeRender witC6state cexWorldC6 "a" "A" 9).2.getD {}).rerenderReason =
      reasonSpec ((finalizeRender witC6state cexWorldC6 "a" "A" 9).2.getD {}).triggers := by
  have h := reason_rule_C6_amended witC6state cexWorldC6 "a" "A" 9
    ((finalizeRender witC6state cexWorldC6 "a" "A" 9).2.getD {}) (by decide) (by decide)
  exact ⟨h.1, h.2 (by decide)⟩

/-! ### Claim C10: the running-statistics invariant -/

/-- C10: `totalRenders` always equals the sum of the per-component counters.
The invariant holds in a fresh registry and is preserved by every public
operation; `finalizeRender` increments both statistics together on each
emission, `reset()` clears both, `cleanupComponent` touches neither, and
`getStats()` therefore always reports a total equal to the sum of
`byComponent`. -/
theorem stats_inv_C10 (o : Options) (st : RegState) (w : World)
    (cid name : String) (now : Nat) (dev : DbgEvent) :
    StatsInv (RenderRegistry.new o)
    ∧ (StatsInv st → StatsInv (recordTrackedDependency st cid dev))
    ∧ (StatsInv st → ∀ st2, recordRenderTrigger st w cid dev = .ok st2 →
        StatsInv st2)
    ∧ (StatsInv st → StatsInv (finalizeRender st w cid name now).1)
    ∧ (StatsInv st → StatsInv (pause st))
    ∧ (StatsInv st → StatsInv (resume st))
    ∧ StatsInv (reset st)
    ∧ (StatsInv st → StatsInv (cleanupComponent st cid))
    ∧ (cleanupComponent st cid).totalRenders = st.totalRenders
    ∧ (cleanupComponent st cid).rendersByComponent = st.rendersByComponent
    ∧ (StatsInv st → (getStats st).totalRenders = sumCounts (getStats st).byComponent)
    ∧ (∀ ev2, (finalizeRender st w cid name now).2 = some ev2 →
        (finalizeRender st w cid name now).1.totalRenders = st.totalRenders + 1
        ∧ aget (finalizeRender st w cid name now).1.rendersByComponent name =
            some ((aget st.rendersByComponent name).getD 0 + 1)) := by
  refine ⟨rfl, ?_, ?_, ?_, fun h => h, fun h => h, rfl, fun h => h, rfl, rfl,
    fun h => h, ?_⟩
  · intro h
    by_cases hp : st.isPaused <;>
      simpa [recordTrackedDependency, hp, StatsInv] using h
  · intro h st2 hok
    have hs := recordRenderTrigger_ok_shape st w cid dev st2 hok
    show st2.totalRenders = sumCounts st2.rendersByComponent
    rw [hs.2.1, hs.2.2.1]
    exact h
  · intro h
    by_cases hp : st.isPaused
    · simpa [finalizeRender, hp] using h
    · simp only [finalizeRender, hp, Bool.false_eq_true, if_false]
      split
      · exact h
      · show st.totalRenders + 1 =
          sumCounts (aset st.rendersByComponent name
            ((aget st.rendersByComponent name).getD 0 + 1))
        rw [sumCounts_aset]
        omega
  · intro ev2 hsome
    by_cases hp : st.isPaused
    · simp [finalizeRender, hp] at hsome
    · have h2 := hsome
      simp only [finalizeRender, hp, Bool.false_eq_true, if_false] at h2 ⊢
      generalize hC : ((match st.options.throttleMs with
          | some t => decide (0 < t)
          | none => false) &&
          decide (now - (aget st.lastRenderTime cid).getD 0 <
            st.options.throttleMs.getD 0)) = cnd at h2 ⊢
      cases cnd
      · simp only [Bool.false_eq_true, if_false] at h2 ⊢
        exact ⟨trivial, aget_aset_self _ _ _⟩
      · simp at h2

/-- Witness for C10: the invariant at a fresh registry, preserved through an
emission for component "A". -/
theorem stats_inv_C10_witness :
    StatsInv (RenderRegistry.new {})
    ∧ StatsInv (finalizeRender (RenderRegistry.new {}) [] "a" "A" 3).1
    ∧ (finalizeRender (RenderRegistry.new {}) [] "a" "A" 3).1.totalRenders =
        (RenderRegistry.new {}).totalRenders + 1 := by
  have h := stats_inv_C10 {} (RenderRegistry.new {}) [] "a" "A" 3 {}
  refine ⟨h.1, h.2.2.2.1 h.1, ?_⟩
  exact (h.2.2.2.2.2.2.2.2.2.2.2
    ((finalizeRender (RenderRegistry.new {}) [] "a" "A" 3).2.getD {}) (by decide)).1

end Wdyr
